import Mathlib

/-!
Verification of the memo-space spatial projection and navigation layer.

The definitions below are shallow embeddings of the TypeScript source:
numbers are modelled as exact rationals or reals, JS `Math.round` as
floor of the value plus one half (round half toward positive infinity),
and component state updates as pure state-passing functions.
-/

namespace MemoSpace

/-- JS `Math.round`: round half toward positive infinity. -/
def jsRound (q : ℚ) : ℤ := ⌊q + 1/2⌋

/-- `mapRange` from `src/components/MemoryOrb.tsx` (lines 120-122):
`((value - inMin) * (outMax - outMin)) / (inMax - inMin) + outMin`.
Note that the output is NOT clamped to `[outMin, outMax]`. -/
def mapRange (value inMin inMax outMin outMax : ℚ) : ℚ :=
  ((value - inMin) * (outMax - outMin)) / (inMax - inMin) + outMin

/-- `dynamicOpacity` from `src/components/MemoryOrb.tsx` (lines 127-131):
the input depth is clamped to `[-radius, radius]` and then linearly mapped
from `[-radius * 0.8, radius * 0.8]` onto `[0.4, 1]`. -/
def dynamicOpacity (radius z : ℚ) : ℚ :=
  let safeZ := max (-radius) (min radius z)
  mapRange safeZ (-(radius * 0.8)) (radius * 0.8) 0.4 1

/-- Claim C4 as stated is false: at radius 350 (the default sphere radius)
and depth -350 (which is at most `-0.8 * 350`), the opacity is
`0.325`, not the claimed floor value `0.4` — `mapRange` does not saturate
its output at the `±0.8 * radius` bounds. -/
theorem dynamicOpacity_floor_claim_false :
    ¬ (∀ r z : ℚ, 0 < r → z ≤ -(r * 0.8) → dynamicOpacity r z = 0.4) := by
  intro h
  have h350 := h 350 (-350) (by norm_num) (by norm_num)
  norm_num [dynamicOpacity, mapRange] at h350

/-- Claim C4 amended: for every radius `r > 0`, the depth-based opacity is
monotonically non-decreasing in the depth; it equals `0.4` exactly at depth
`-0.8 * r` and `1` exactly at depth `0.8 * r`, but it does not saturate
there: it keeps growing linearly, saturating only at the domain clamp, with
value `0.325` for every depth at most `-r` and `1.075` for every depth at
least `r`. -/
theorem dynamicOpacity_monotone_and_bounds (r : ℚ) (hr : 0 < r) :
    (∀ z₁ z₂ : ℚ, z₁ ≤ z₂ → dynamicOpacity r z₁ ≤ dynamicOpacity r z₂) ∧
    dynamicOpacity r (-(r * 0.8)) = 0.4 ∧
    dynamicOpacity r (r * 0.8) = 1 ∧
    (∀ z : ℚ, z ≤ -r → dynamicOpacity r z = 0.325) ∧
    (∀ z : ℚ, r ≤ z → dynamicOpacity r z = 1.075) := by
  refine ⟨?_, ?_, ?_, ?_, ?_⟩
  · intro z₁ z₂ hz
    unfold dynamicOpacity mapRange
    have hs : max (-r) (min r z₁) ≤ max (-r) (min r z₂) :=
      max_le_max le_rfl (min_le_min le_rfl hz)
    have hpos : (0:ℚ) < r * 0.8 - -(r * 0.8) := by linarith
    apply add_le_add_right
    rw [div_le_div_iff_of_pos_right hpos]
    nlinarith
  · unfold dynamicOpacity mapRange
    have h1 : min r (-(r * 0.8)) = -(r * 0.8) := min_eq_right (by linarith)
    have h2 : max (-r) (-(r * 0.8)) = -(r * 0.8) := max_eq_right (by linarith)
    rw [h1, h2]
    field_simp
  · unfold dynamicOpacity mapRange
    have h1 : min r (r * 0.8) = r * 0.8 := min_eq_right (by linarith)
    have h2 : max (-r) (r * 0.8) = r * 0.8 := max_eq_right (by linarith)
    rw [h1, h2]
    field_simp
  · intro z hz
    unfold dynamicOpacity mapRange
    have h1 : min r z = z := min_eq_right (by linarith)
    have h2 : max (-r) z = -r := max_eq_left (by linarith)
    rw [h1, h2]
    field_simp
    ring
  · intro z hz
    unfold dynamicOpacity mapRange
    have h1 : min r z = r := min_eq_left hz
    have h2 : max (-r) r = r := max_eq_right (by linarith)
    rw [h1, h2]
    field_simp
    ring

/-- Witness for the amended C4 theorem at the default sphere radius 350. -/
theorem dynamicOpacity_monotone_and_bounds_witness :
    (0:ℚ) < 350 ∧ dynamicOpacity 350 (-((350:ℚ) * 0.8)) = 0.4 :=
  ⟨by norm_num, (dynamicOpacity_monotone_and_bounds 350 (by norm_num)).2.1⟩

/-- The CJK test from `src/managers/MemoryManager.ts` line 232:
`/[一-龥]/.test(currentDesc.slice(-1))` — true exactly when the
last character of the string lies in the CJK unified ideographs range. -/
def lastCharIsCJK (s : String) : Bool :=
  match s.data.getLast? with
  | none => false
  | some c => 0x4e00 ≤ c.toNat && c.toNat ≤ 0x9fa5

/-- The separator chosen by `expandMemoryDescription`
(`src/managers/MemoryManager.ts` line 232). -/
def expandSeparator (currentDesc : String) : String :=
  if lastCharIsCJK currentDesc then "" else " "

/-- The new description computed by `expandMemoryDescription`
(`src/managers/MemoryManager.ts` lines 231-235): when the returned text is
non-empty (JS truthiness of the string), the continuation is appended after
the language-aware separator; otherwise no update is issued (`none`). -/
def expandNewDescription (currentDesc addedText : String) : Option String :=
  if addedText = "" then none
  else some (currentDesc ++ expandSeparator currentDesc ++ addedText)

/-- Claim C9: on a successful expand with non-empty returned text, the
continuation is appended with language-aware spacing — no separating space
when the description ends in a CJK character, exactly one space otherwise —
and the existing description is preserved as a prefix of the result. -/
theorem expandNewDescription_spacing (desc added : String) (h : added ≠ "") :
    (lastCharIsCJK desc = true → expandNewDescription desc added = some (desc ++ added)) ∧
    (lastCharIsCJK desc = false → expandNewDescription desc added = some (desc ++ " " ++ added)) ∧
    (∃ rest : String, expandNewDescription desc added = some (desc ++ rest)) := by
  refine ⟨?_, ?_, ?_⟩
  · intro hcjk
    simp [expandNewDescription, expandSeparator, h, hcjk]
  · intro hcjk
    simp [expandNewDescription, expandSeparator, h, hcjk, String.append_assoc]
  · exact ⟨expandSeparator desc ++ added, by simp [expandNewDescription, h, String.append_assoc]⟩

/-- Witness for C9: appending Latin text to a CJK-ending description
inserts no separating space. -/
theorem expandNewDescription_spacing_witness :
    ("abc" ≠ "") ∧ lastCharIsCJK "雨" = true ∧
      expandNewDescription "雨" "abc" = some ("雨" ++ "abc") :=
  ⟨by decide, by decide, (expandNewDescription_spacing "雨" "abc" (by decide)).1 (by decide)⟩

/-- A memory record, from `src/unnamed/part_006` (the `Memory` interface):
one photo with spherical position, caption and visual metadata. Numeric
fields are modelled as exact rationals. -/
structure Memory where
  id : String
  url : String
  description : String
  timestamp : ℚ
  theta : ℚ
  phi : ℚ
  scale : ℚ
  rotation : ℚ
  driftSpeed : ℚ
  isAnalyzing : Bool
deriving DecidableEq

/-- A partial update (`Partial<Memory>` in the source): each field is
optionally overridden. -/
structure MemoryUpdates where
  id : Option String := none
  url : Option String := none
  description : Option String := none
  timestamp : Option ℚ := none
  theta : Option ℚ := none
  phi : Option ℚ := none
  scale : Option ℚ := none
  rotation : Option ℚ := none
  driftSpeed : Option ℚ := none
  isAnalyzing : Option Bool := none
deriving DecidableEq

/-- JS object spread `{ ...m, ...updates }`: every field present in the
update overrides the corresponding field of the record. -/
def applyUpdates (m : Memory) (u : MemoryUpdates) : Memory where
  id := u.id.getD m.id
  url := u.url.getD m.url
  description := u.description.getD m.description
  timestamp := u.timestamp.getD m.timestamp
  theta := u.theta.getD m.theta
  phi := u.phi.getD m.phi
  scale := u.scale.getD m.scale
  rotation := u.rotation.getD m.rotation
  driftSpeed := u.driftSpeed.getD m.driftSpeed
  isAnalyzing := u.isAnalyzing.getD m.isAnalyzing

/-- The memory store state (`useMemoryStore` in `src/stores/orbStore.ts`,
lines 34-47 of that file). -/
structure MemoryState where
  memories : List Memory
  selectedMemoryId : Option String
  isProcessing : Bool
deriving DecidableEq

/-- `updateMemory` from `src/stores/orbStore.ts` lines 39-41: map over the
list, patching exactly the records whose id matches. -/
def updateMemory (id : String) (updates : MemoryUpdates) (s : MemoryState) : MemoryState :=
  { s with memories := s.memories.map (fun m => if m.id = id then applyUpdates m updates else m) }

/-- Claim C10: `updateMemory id updates` preserves the list length,
leaves `selectedMemoryId` and `isProcessing` untouched, leaves every
position holding a record with a different id unchanged (hence preserves
order), and is a complete no-op when no record has the given id. -/
theorem updateMemory_frame (s : MemoryState) (id : String) (u : MemoryUpdates) :
    (updateMemory id u s).memories.length = s.memories.length ∧
    (updateMemory id u s).selectedMemoryId = s.selectedMemoryId ∧
    (updateMemory id u s).isProcessing = s.isProcessing ∧
    (∀ (i : ℕ) (m : Memory), s.memories[i]? = some m → m.id ≠ id →
      (updateMemory id u s).memories[i]? = some m) ∧
    ((∀ m ∈ s.memories, m.id ≠ id) → updateMemory id u s = s) := by
  refine ⟨by simp [updateMemory], rfl, rfl, ?_, ?_⟩
  · intro i m hm hne
    simp [updateMemory, List.getElem?_map, hm, hne]
  · intro hall
    have hmap : s.memories.map (fun m => if m.id = id then applyUpdates m u else m)
        = s.memories := by
      have hcongr : s.memories.map (fun m => if m.id = id then applyUpdates m u else m)
          = s.memories.map (fun m => m) := by
        apply List.map_congr_left
        intro m hm
        simp [hall m hm]
      rw [hcongr, List.map_id']
    cases s
    simp [updateMemory, hmap]

/-- A sample record used by the C10 witness. -/
def memA : Memory where
  id := "a"
  url := "u1"
  description := "d1"
  timestamp := 0
  theta := 0
  phi := 1
  scale := 1
  rotation := 0
  driftSpeed := 1
  isAnalyzing := false

/-- A second sample record used by the C10 witness. -/
def memB : Memory where
  id := "b"
  url := "u2"
  description := "d2"
  timestamp := 1
  theta := 2
  phi := 1
  scale := 1
  rotation := 0
  driftSpeed := 1
  isAnalyzing := true

/-- Witness for C10: patching record `a` leaves the record `b` at
position 1 untouched. -/
theorem updateMemory_frame_witness :
    (MemoryState.mk [memA, memB] (some "a") false).memories[1]? = some memB ∧
    memB.id ≠ "a" ∧
    (updateMemory "a" { description := some "x" }
        (MemoryState.mk [memA, memB] (some "a") false)).memories[1]? = some memB :=
  ⟨by decide, by decide,
    (updateMemory_frame (MemoryState.mk [memA, memB] (some "a") false) "a"
        { description := some "x" }).2.2.2.1 1 memB (by decide) (by decide)⟩

/-- An input file of an upload batch: whether its MIME type starts with
`image/`, and the outcome of its caption request (`some text` on success,
`none` on failure). -/
structure UploadFile where
  isImage : Bool
  caption : Option String
deriving DecidableEq

/-- Deterministic stand-in for the uuid of the j-th accepted image of a
batch (ids only need to be distinct and stable for the pairing claim). -/
def uploadId (j : ℕ) : String := "upload-" ++ toString j

/-- The placeholder record pre-created by `uploadFiles`
(`src/managers/MemoryManager.ts` lines 157-182) for the j-th accepted
image: analyzing flag set, placeholder description. Position jitter, url
and decorative random fields are irrelevant to the pairing claim and take
fixed stand-in values. -/
def uploadPlaceholder (j : ℕ) : Memory where
  id := uploadId j
  url := ""
  description := "正在唤醒记忆..."
  timestamp := 0
  theta := 0
  phi := 1
  scale := 1
  rotation := 0
  driftSpeed := 10
  isAnalyzing := true

/-- `newMemories` after the pre-creation loop of `uploadFiles`: one
placeholder per accepted image, in input order — non-image files are
skipped and produce no entry. -/
def uploadPlaceholders (files : List UploadFile) : List Memory :=
  ((files.filter (fun f => f.isImage)).enum).map (fun p => uploadPlaceholder p.1)

/-- The processing loop of `uploadFiles` (`src/managers/MemoryManager.ts`
lines 195-208): it walks ALL files by index `i`, skips non-images, and for
an image reads `newMemories[i]` — the file index, not the index among
accepted images. When that entry exists, the caption result (or the
failure fallback) is recorded against that entry's id; when it is
`undefined` (index past the shorter `newMemories` list), reading
`memory.id` throws inside both the `try` and the `catch`, so the loop
aborts: no further update is applied and the promise rejects (`true` in
the second component). -/
def uploadProcessAux (newMemories : List Memory) :
    List (ℕ × UploadFile) → List (String × String) × Bool
  | [] => ([], false)
  | (i, f) :: rest =>
    if f.isImage then
      match newMemories[i]? with
      | some m =>
        let desc := match f.caption with
          | some t => t
          | none => "记忆模糊..."
        let tail := uploadProcessAux newMemories rest
        ((m.id, desc) :: tail.1, tail.2)
      | none => ([], true)
    else uploadProcessAux newMemories rest

/-- The full caption-application outcome of `uploadFiles` for a batch: the
list of `(memory id, new description)` updates actually issued, and
whether the loop crashed on an undefined `newMemories[i]`. -/
def uploadProcess (files : List UploadFile) : List (String × String) × Bool :=
  uploadProcessAux (uploadPlaceholders files) files.enum

/-- Claim C5 fails on the code: for the batch
`[non-image, image with caption "cap"]`, exactly one placeholder
(`"upload-0"`) is created for the accepted image, but the processing loop
indexes `newMemories` by the file index 1, finds `undefined`, and crashes:
no caption update at all is applied to the accepted image's record, which
therefore keeps its placeholder and stays analyzing forever. -/
theorem uploadFiles_caption_misindexed :
    (uploadPlaceholders [⟨false, none⟩, ⟨true, some "cap"⟩]).map Memory.id = ["upload-0"] ∧
    uploadProcess [⟨false, none⟩, ⟨true, some "cap"⟩] = ([], true) := by
  constructor
  · rfl
  · rfl

/-- `GalleryManager.setActiveIndex` from `src/unnamed/part_005` lines 5-10:
no-op on an empty collection, otherwise the committed index is clamped to
`[0, count - 1]`. -/
def galleryManagerSetActiveIndex (count cur index : ℤ) : ℤ :=
  if count = 0 then cur else max 0 (min (count - 1) index)

/-- `onPanEnd` from `src/components/GalleryView.tsx` lines 64-91: flick
velocity or net offset past independent thresholds steps the index by ±1,
then the result is clamped to `[0, len - 1]` before being committed.
`velocityY`/`offsetY` are the raw pan values; the code negates them. -/
def onPanEndCommit (len activeIndex : ℤ) (velocityY offsetY : ℚ) : ℤ :=
  let velocity := -velocityY
  let offset := -offsetY
  let target :=
    if velocity > 300 ∨ offset > 280 * 0.25 then activeIndex + 1
    else if velocity < -300 ∨ offset < -(280 * 0.25) then activeIndex - 1
    else activeIndex
  max 0 (min (len - 1) target)

/-- The committed index produced by `handleWheel`
(`src/components/GalleryView.tsx` lines 97-116) once the accumulator
crosses its threshold: one step in the wheel direction, clamped. -/
def wheelCommit (len activeIndex direction : ℤ) : ℤ :=
  max 0 (min (len - 1) (activeIndex + direction))

/-- `handleScrollbarClick` (`src/components/GalleryView.tsx` lines
120-127): the click percentage is mapped proportionally onto the index
range, rounded, and clamped. -/
def scrollbarCommit (len : ℤ) (pct : ℚ) : ℤ :=
  max 0 (min (len - 1) (jsRound (pct * ((len : ℚ) - 1))))

/-- Gallery drag state: the committed integer index plus the continuous
(floating-point) index motion value. -/
structure GalleryDragState where
  activeIndex : ℤ
  continuous : ℚ
deriving DecidableEq

/-- `onPan` from `src/components/GalleryView.tsx` lines 44-62: the drag
offset is converted 1:1 into an index-fractional delta; out-of-range raw
targets are dampened by the fixed resistance factor 0.3 (rubber-banding);
only the continuous value is written — the committed index is untouched. -/
def onPanMove (len : ℤ) (s : GalleryDragState) (offsetY : ℚ) : GalleryDragState :=
  let deltaIndex := -offsetY / 280
  let rawTarget := (s.activeIndex : ℚ) + deltaIndex
  let dampened :=
    if rawTarget < 0 then rawTarget * 0.3
    else if rawTarget > (len : ℚ) - 1 then ((len : ℚ) - 1) + (rawTarget - ((len : ℚ) - 1)) * 0.3
    else rawTarget
  { s with continuous := dampened }

/-- Claim C6: on a non-empty collection, every committed-index producer of
the gallery — the manager clamp, drag release, wheel stepping and
scrollbar selection — yields an integer in `[0, len - 1]` (clamped, never
wrapped), for ANY requested target or current index; and dragging only
rewrites the continuous position, never the committed index. -/
theorem gallery_commit_in_range (len cur idx ai dir : ℤ) (v off pct oy : ℚ)
    (s : GalleryDragState) (hlen : 1 ≤ len) :
    (0 ≤ galleryManagerSetActiveIndex len cur idx ∧
      galleryManagerSetActiveIndex len cur idx ≤ len - 1) ∧
    (0 ≤ onPanEndCommit len ai v off ∧ onPanEndCommit len ai v off ≤ len - 1) ∧
    (0 ≤ wheelCommit len ai dir ∧ wheelCommit len ai dir ≤ len - 1) ∧
    (0 ≤ scrollbarCommit len pct ∧ scrollbarCommit len pct ≤ len - 1) ∧
    (onPanMove len s oy).activeIndex = s.activeIndex := by
  refine ⟨?_, ?_, ?_, ?_, ?_⟩
  · unfold galleryManagerSetActiveIndex
    split
    · omega
    · omega
  · unfold onPanEndCommit
    dsimp only
    split_ifs <;> omega
  · unfold wheelCommit
    omega
  · unfold scrollbarCommit
    omega
  · rfl

/-- Witness for C6 on a 3-item collection with deliberately out-of-range
requests (target 99, hard downward flick from index 0, scrollbar click
past the end of the track). -/
theorem gallery_commit_in_range_witness :
    (1:ℤ) ≤ 3 ∧
    (0 ≤ galleryManagerSetActiveIndex 3 0 99 ∧ galleryManagerSetActiveIndex 3 0 99 ≤ 3 - 1) :=
  ⟨by decide, (gallery_commit_in_range 3 0 99 0 1 0 500 2 500 ⟨0, 0⟩ (by decide)).1⟩

/-- The world view timer state (`WorldManager` in `src/unnamed/part_003`):
the private `autoPlayInterval` handle, the `isPlaying` flag, plus an
abstract model of the host timer table — the set of currently scheduled
interval ids and a fresh-id counter. -/
structure WorldTimerState where
  nextId : ℕ
  active : Finset ℕ
  autoPlayInterval : Option ℕ
  isPlaying : Bool
deriving DecidableEq

/-- `stopAutoPlay` (`src/unnamed/part_003` lines 46-51): if a handle is
held, clear that interval and null the handle. -/
def stopAutoPlay (s : WorldTimerState) : WorldTimerState :=
  match s.autoPlayInterval with
  | none => s
  | some t => { s with active := s.active.erase t, autoPlayInterval := none }

/-- `startAutoPlay` (`src/unnamed/part_003` lines 39-44): first stop any
existing interval, then schedule a fresh one and hold its handle. -/
def startAutoPlay (s : WorldTimerState) : WorldTimerState :=
  let s1 := stopAutoPlay s
  { s1 with
      active := insert s1.nextId s1.active
      nextId := s1.nextId + 1
      autoPlayInterval := some s1.nextId }

/-- `setPlay` (`src/unnamed/part_003` lines 29-37): record the flag, then
start or stop the autoplay interval. -/
def setPlay (playing : Bool) (s : WorldTimerState) : WorldTimerState :=
  let s1 := { s with isPlaying := playing }
  if playing then startAutoPlay s1 else stopAutoPlay s1

/-- `cleanup` (`src/unnamed/part_003` lines 53-56). -/
def worldCleanup (s : WorldTimerState) : WorldTimerState :=
  stopAutoPlay s

/-- The timer invariant: the scheduled intervals are exactly the one named
by the held handle (so there is at most one). -/
def TimerInv (s : WorldTimerState) : Prop :=
  s.active = match s.autoPlayInterval with
    | none => ∅
    | some t => {t}

lemma timerInv_stop (s : WorldTimerState) (h : TimerInv s) :
    TimerInv (stopAutoPlay s) ∧ (stopAutoPlay s).active = ∅ := by
  unfold TimerInv stopAutoPlay at *
  cases hs : s.autoPlayInterval with
  | none => simp_all
  | some t => simp_all [Finset.erase_singleton]

lemma timerInv_start (s : WorldTimerState) (h : TimerInv s) :
    TimerInv (startAutoPlay s) ∧ (startAutoPlay s).active.card = 1 := by
  have hstop := timerInv_stop s h
  unfold TimerInv startAutoPlay
  simp [hstop.2]

lemma timerInv_isPlaying (s : WorldTimerState) (b : Bool) (h : TimerInv s) :
    TimerInv { s with isPlaying := b } := by
  unfold TimerInv at *
  simpa using h

/-- Claim C7: from any state satisfying the timer invariant, `setPlay`
preserves it and leaves at most one scheduled interval; starting play
twice in a row leaves exactly one; stopping play, or `cleanup` on
unmount, leaves zero scheduled advances. -/
theorem world_autoplay_single_timer (s : WorldTimerState) (h : TimerInv s) :
    (∀ b : Bool, TimerInv (setPlay b s) ∧ (setPlay b s).active.card ≤ 1) ∧
    (setPlay true (setPlay true s)).active.card = 1 ∧
    (setPlay false s).active = ∅ ∧
    (worldCleanup s).active = ∅ := by
  have hplay : ∀ (b : Bool) (s' : WorldTimerState), TimerInv s' →
      TimerInv (setPlay b s') ∧ (setPlay b s').active.card ≤ 1 := by
    intro b s' h'
    have h1 := timerInv_isPlaying s' b h'
    unfold setPlay
    cases b with
    | false =>
      have := timerInv_stop _ h1
      simpa [this.2] using this.1
    | true =>
      have := timerInv_start _ h1
      exact ⟨this.1, by simp [this.2]⟩
  refine ⟨fun b => hplay b s h, ?_, ?_, ?_⟩
  · have h1 := hplay true s h
    have h2 := timerInv_isPlaying _ true h1.1
    have := timerInv_start _ h2
    simpa [setPlay] using this.2
  · have h1 := timerInv_isPlaying s false h
    have := timerInv_stop _ h1
    simpa [setPlay] using this.2
  · exact (timerInv_stop s h).2

/-- Witness for C7 from the initial world state (no timer scheduled). -/
theorem world_autoplay_single_timer_witness :
    TimerInv (WorldTimerState.mk 0 ∅ none false) ∧
    (setPlay true (setPlay true (WorldTimerState.mk 0 ∅ none false))).active.card = 1 :=
  ⟨rfl, (world_autoplay_single_timer (WorldTimerState.mk 0 ∅ none false) rfl).2.1⟩

/-- `snapToBalance` from `src/components/MemoryOrb.tsx` lines 40-42:
`Math.round(val / 360) * 360` — the nearest multiple of 360 degrees. -/
def snapToBalance (val : ℚ) : ℚ :=
  (jsRound (val / 360) : ℚ) * 360

/-- A drag controller instance: two raw rotation accumulators plus the
dragging flag. Used for both the per-orb spin and the global camera. -/
structure SpinState where
  rotX : ℚ
  rotY : ℚ
  dragging : Bool
deriving DecidableEq

/-- `handlePointerUp` of the per-orb controller
(`src/components/MemoryOrb.tsx` lines 74-85): ignored unless dragging;
ends the drag, and snaps both axes to balance exactly when gravity mode
is active. -/
def memoryOrbPointerUp (isGravityMode : Bool) (s : SpinState) : SpinState :=
  if s.dragging then
    if isGravityMode then
      { rotX := snapToBalance s.rotX, rotY := snapToBalance s.rotY, dragging := false }
    else { s with dragging := false }
  else s

/-- The gravity-mode effect of `MemoryOrb` (lines 45-50): on enable, both
axes snap immediately; otherwise nothing happens. -/
def gravityModeEffect (isGravityMode : Bool) (s : SpinState) : SpinState :=
  if isGravityMode then
    { s with rotX := snapToBalance s.rotX, rotY := snapToBalance s.rotY }
  else s

/-- `handlePointerUp` of the global camera (`src/components/OrbView.tsx`
lines 74-77): it only ends the drag — the rotation values are left as
they are, whatever the gravity mode. -/
def orbViewPointerUp (s : SpinState) : SpinState :=
  { s with dragging := false }

/-- Claim C8 fails on the code: with gravity mode active, releasing a drag
of the GLOBAL sphere camera does not snap — at rotation 100° the camera
keeps 100°, although the nearest multiple of 360° is 0. Only the per-orb
controller snaps. -/
theorem camera_pointer_up_does_not_snap :
    (orbViewPointerUp (SpinState.mk 100 0 true)).rotX = 100 ∧
    snapToBalance 100 = 0 ∧ (100 : ℚ) ≠ 0 := by
  refine ⟨rfl, ?_, by norm_num⟩
  norm_num [snapToBalance, jsRound]

/-- Claim C8 amended: while gravity mode is active, the PER-ORB drag
controller snaps both raw rotation axes to the nearest multiple of 360°,
both immediately on mode-enable and again on drag release; with gravity
mode inactive its rotation persists on release; the GLOBAL sphere camera
never snaps — its pointer-up leaves both axes unchanged regardless of
gravity mode, as does a disabled gravity effect. -/
theorem gravity_snap_per_orb_only (s : SpinState) (h : s.dragging = true) :
    (memoryOrbPointerUp true s).rotX = snapToBalance s.rotX ∧
    (memoryOrbPointerUp true s).rotY = snapToBalance s.rotY ∧
    (memoryOrbPointerUp true s).dragging = false ∧
    (memoryOrbPointerUp false s).rotX = s.rotX ∧
    (memoryOrbPointerUp false s).rotY = s.rotY ∧
    (∀ s' : SpinState,
      (gravityModeEffect true s').rotX = snapToBalance s'.rotX ∧
      (gravityModeEffect true s').rotY = snapToBalance s'.rotY ∧
      gravityModeEffect false s' = s' ∧
      (orbViewPointerUp s').rotX = s'.rotX ∧
      (orbViewPointerUp s').rotY = s'.rotY) := by
  refine ⟨?_, ?_, ?_, ?_, ?_, ?_⟩
  · simp [memoryOrbPointerUp, h]
  · simp [memoryOrbPointerUp, h]
  · simp [memoryOrbPointerUp, h]
  · simp [memoryOrbPointerUp, h]
  · simp [memoryOrbPointerUp, h]
  · intro s'
    refine ⟨rfl, rfl, ?_, rfl, rfl⟩
    simp [gravityModeEffect]

/-- Witness for the amended C8 at rotation (100°, 370°): the per-orb
release under gravity snaps the X axis to `snapToBalance 100 = 0`. -/
theorem gravity_snap_per_orb_only_witness :
    (SpinState.mk 100 370 true).dragging = true ∧
    (memoryOrbPointerUp true (SpinState.mk 100 370 true)).rotX = snapToBalance 100 :=
  ⟨rfl, (gravity_snap_per_orb_only (SpinState.mk 100 370 true) rfl).1⟩

/-- A point or direction in the 3D scene. -/
structure Vec3 where
  x : ℝ
  y : ℝ
  z : ℝ

/-- Degrees to radians, `rot * (Math.PI / 180)` as in
`src/components/MemoryOrb.tsx` lines 98-99. -/
noncomputable def degToRad (d : ℝ) : ℝ := d * (Real.pi / 180)

/-- Rotation about the X axis with the convention written out in the
`projectedZ` comments of `src/components/MemoryOrb.tsx` (lines 105-109):
`y' = y*cos - z*sin`, `z' = y*sin + z*cos`. -/
noncomputable def rotateX (a : ℝ) (v : Vec3) : Vec3 :=
  ⟨v.x, v.y * Real.cos a - v.z * Real.sin a, v.y * Real.sin a + v.z * Real.cos a⟩

/-- Rotation about the Y axis with the matching convention
(`z_final = z*cos - x*sin`, line 112): `x' = x*cos + z*sin`,
`z' = -x*sin + z*cos`. -/
noncomputable def rotateY (a : ℝ) (v : Vec3) : Vec3 :=
  ⟨v.x * Real.cos a + v.z * Real.sin a, v.y, -v.x * Real.sin a + v.z * Real.cos a⟩

/-- The static Cartesian position of a memory
(`src/components/MemoryOrb.tsx` lines 88-90). -/
noncomputable def staticPos (radius theta phi : ℝ) : Vec3 :=
  ⟨radius * Real.sin phi * Real.cos theta,
   radius * Real.cos phi,
   radius * Real.sin phi * Real.sin theta⟩

/-- `projectedZ` from `src/components/MemoryOrb.tsx` lines 94-117: rotate
about X first, then about Y, and keep the z component. -/
noncomputable def projectedZ (rotX rotY : ℝ) (pos : Vec3) : ℝ :=
  let rX := degToRad rotX
  let rY := degToRad rotY
  let z_after_x := pos.y * Real.sin rX + pos.z * Real.cos rX
  z_after_x * Real.cos rY - pos.x * Real.sin rY

/-- The rotation actually applied by `OrbView`
(`src/components/OrbView.tsx` lines 151-171): an OUTER element carrying
`rotateX(pitch)` wraps an INNER element carrying `rotateY(yaw)`, so a
child vector is rotated about Y first (inner, local) and about X second
(outer): `RotX(pitch) ∘ RotY(yaw)`. -/
noncomputable def orbViewWorldRotation (rotX rotY : ℝ) (v : Vec3) : Vec3 :=
  rotateX (degToRad rotX) (rotateY (degToRad rotY) v)

/-- The counter-rotation wrapper of `MemoryOrb` (lines 152-153 and
178-188): its `transformTemplate` renders `rotateX(-pitch) rotateY(-yaw)`,
i.e. `RotX(-pitch) ∘ RotY(-yaw)` applied to the orb's local frame. -/
noncomputable def billboardWrapperRotation (rotX rotY : ℝ) (v : Vec3) : Vec3 :=
  rotateX (degToRad (-rotX)) (rotateY (degToRad (-rotY)) v)

/-- The effective combined rotation of a billboarded orb: the wrapper acts
on the orb's frame, and the container composition acts on the result. -/
noncomputable def billboardCombined (rotX rotY : ℝ) (v : Vec3) : Vec3 :=
  orbViewWorldRotation rotX rotY (billboardWrapperRotation rotX rotY v)

lemma degToRad_ninety : degToRad 90 = Real.pi / 2 := by
  unfold degToRad; ring

lemma degToRad_neg_ninety : degToRad (-90) = -(Real.pi / 2) := by
  unfold degToRad; ring

/-- Claim C1 fails on the code: at camera rotation (90°, 90°) the combined
rotation sends the unit X direction to the unit Z direction instead of
fixing it — the wrapper inverts `RotY ∘ RotX` while the container applies
`RotX ∘ RotY`, so the composition is not the identity and the orb's image
plane does not always face the viewer. -/
theorem billboard_combined_not_identity :
    billboardCombined 90 90 ⟨1, 0, 0⟩ = ⟨0, 0, 1⟩ ∧
    ¬ (∀ (p y : ℝ) (v : Vec3), billboardCombined p y v = v) := by
  have heval : billboardCombined 90 90 ⟨1, 0, 0⟩ = ⟨0, 0, 1⟩ := by
    unfold billboardCombined orbViewWorldRotation billboardWrapperRotation rotateX rotateY
    rw [degToRad_ninety, degToRad_neg_ninety]
    simp [Real.cos_pi_div_two, Real.sin_pi_div_two]
  refine ⟨heval, fun hall => ?_⟩
  have h1 := hall 90 90 ⟨1, 0, 0⟩
  rw [heval] at h1
  have : (0:ℝ) = 1 := congrArg Vec3.x h1
  norm_num at this

/-- Claim C2 fails on the code: for the memory at `(theta, phi) =
(0, π/2)` on the unit sphere (Cartesian `(1,0,0)`) and camera rotation
(90°, 90°), the engine's `projectedZ` yields `-1`, while the z component
of the rotation `OrbView` actually renders (`RotX ∘ RotY`) is `0` — the
depth engine composes the two axis rotations in the opposite order from
the renderer. -/
theorem projectedZ_order_mismatch :
    projectedZ 90 90 (staticPos 1 0 (Real.pi / 2)) = -1 ∧
    (orbViewWorldRotation 90 90 (staticPos 1 0 (Real.pi / 2))).z = 0 ∧
    ¬ (∀ (r θ φ p y : ℝ),
        projectedZ p y (staticPos r θ φ) = (orbViewWorldRotation p y (staticPos r θ φ)).z) := by
  have hpos : staticPos 1 0 (Real.pi / 2) = ⟨1, 0, 0⟩ := by
    unfold staticPos
    simp [Real.cos_pi_div_two, Real.sin_pi_div_two]
  have h1 : projectedZ 90 90 (staticPos 1 0 (Real.pi / 2)) = -1 := by
    rw [hpos]
    unfold projectedZ
    rw [degToRad_ninety]
    simp [Real.cos_pi_div_two, Real.sin_pi_div_two]
  have h2 : (orbViewWorldRotation 90 90 (staticPos 1 0 (Real.pi / 2))).z = 0 := by
    rw [hpos]
    unfold orbViewWorldRotation rotateX rotateY
    rw [degToRad_ninety]
    simp [Real.cos_pi_div_two, Real.sin_pi_div_two]
  refine ⟨h1, h2, fun hall => ?_⟩
  have := hall 1 0 (Real.pi / 2) 90 90
  rw [h1, h2] at this
  norm_num at this

/-- JS `Math.atan2(y, x)`: the angle of the point `(x, y)`, in `(-π, π]`,
with `atan2 0 0 = 0` — exactly the argument of the complex number
`x + y·i`. -/
noncomputable def atan2 (y x : ℝ) : ℝ := Complex.arg ⟨x, y⟩

/-- `getFrontAndCenterPos` from `src/managers/MemoryManager.ts` lines
104-118: the spherical coordinates `(theta, phi)` of the camera-facing
direction for camera rotation `(rotXDeg, rotYDeg)`. -/
noncomputable def getFrontAndCenterPos (rotXDeg rotYDeg : ℝ) : ℝ × ℝ :=
  let rotX := degToRad rotXDeg
  let rotY := degToRad rotYDeg
  let x := -Real.cos rotX * Real.sin rotY
  let y := Real.sin rotX
  let z := Real.cos rotX * Real.cos rotY
  let clampedY := max (-1) (min 1 y)
  let phi := Real.arccos clampedY
  let theta := atan2 z x
  (theta, phi)

lemma staticPos_reconstruct (x y z : ℝ) (hnorm : x ^ 2 + y ^ 2 + z ^ 2 = 1) :
    staticPos 1 (atan2 z x) (Real.arccos y) = ⟨x, y, z⟩ := by
  have hy1 : -1 ≤ y := by nlinarith
  have hy2 : y ≤ 1 := by nlinarith
  have hcosphi : Real.cos (Real.arccos y) = y := Real.cos_arccos hy1 hy2
  have hxz : 1 - y ^ 2 = x ^ 2 + z ^ 2 := by linarith
  have hsinphi : Real.sin (Real.arccos y) = Real.sqrt (x ^ 2 + z ^ 2) := by
    rw [Real.sin_arccos, hxz]
  have habs : Complex.abs ⟨x, z⟩ = Real.sqrt (x ^ 2 + z ^ 2) := by
    rw [Complex.abs_apply, Complex.normSq_mk]
    ring_nf
  by_cases hw : (⟨x, z⟩ : ℂ) = 0
  · have hx0 : x = 0 := by
      have := congrArg Complex.re hw
      simpa using this
    have hz0 : z = 0 := by
      have := congrArg Complex.im hw
      simpa using this
    have htheta : atan2 z x = 0 := by
      unfold atan2
      rw [hw, Complex.arg_zero]
    have hs0 : Real.sin (Real.arccos y) = 0 := by
      rw [hsinphi, hx0, hz0]
      simp
    simp only [staticPos, Vec3.mk.injEq]
    rw [htheta, hcosphi, hs0]
    simp [hx0, hz0]
  · have habs_pos : 0 < Complex.abs ⟨x, z⟩ := by
      simpa [AbsoluteValue.pos_iff] using hw
    have hcosθ : Real.cos (atan2 z x) = x / Complex.abs ⟨x, z⟩ := by
      unfold atan2
      rw [Complex.cos_arg hw]
    have hsinθ : Real.sin (atan2 z x) = z / Complex.abs ⟨x, z⟩ := by
      unfold atan2
      rw [Complex.sin_arg]
    have hsin_abs : Real.sin (Real.arccos y) = Complex.abs ⟨x, z⟩ := by
      rw [hsinphi, habs]
    simp only [staticPos, Vec3.mk.injEq]
    rw [hcosphi, hsin_abs, hcosθ, hsinθ]
    refine ⟨?_, by ring, ?_⟩
    · rw [one_mul, mul_div_cancel₀ _ (ne_of_gt habs_pos)]
    · rw [one_mul, mul_div_cancel₀ _ (ne_of_gt habs_pos)]

lemma display_rot_forward (rx ry : ℝ) :
    rotateX rx (rotateY ry
      ⟨-Real.cos rx * Real.sin ry, Real.sin rx, Real.cos rx * Real.cos ry⟩) = ⟨0, 0, 1⟩ := by
  unfold rotateX rotateY
  simp only [Vec3.mk.injEq]
  refine ⟨by ring, ?_, ?_⟩
  · linear_combination (-(Real.sin rx * Real.cos rx)) * Real.sin_sq_add_cos_sq ry
  · linear_combination (Real.cos rx) ^ 2 * Real.sin_sq_add_cos_sq ry +
      Real.sin_sq_add_cos_sq rx

lemma frontAndCenter_radians (rx ry : ℝ) :
    rotateX rx (rotateY ry (staticPos 1
      (atan2 (Real.cos rx * Real.cos ry) (-Real.cos rx * Real.sin ry))
      (Real.arccos (max (-1) (min 1 (Real.sin rx)))))) = ⟨0, 0, 1⟩ := by
  have hclamp : max (-1) (min 1 (Real.sin rx)) = Real.sin rx := by
    rw [min_eq_right (Real.sin_le_one rx), max_eq_right (Real.neg_one_le_sin rx)]
  have hnorm : (-Real.cos rx * Real.sin ry) ^ 2 + (Real.sin rx) ^ 2 +
      (Real.cos rx * Real.cos ry) ^ 2 = 1 := by
    have h1 := Real.sin_sq_add_cos_sq rx
    have h2 := Real.sin_sq_add_cos_sq ry
    nlinarith [h1, h2]
  rw [hclamp, staticPos_reconstruct _ _ _ hnorm]
  exact display_rot_forward rx ry

/-- Claim C3: for every camera rotation, the placement direction returned
by `getFrontAndCenterPos` is the exact inverse rotation of the canonical
forward vector `(0,0,1)`: converting `(theta, phi)` back to Cartesian
coordinates on the unit sphere and applying the rotation composition that
`OrbView` renders yields `(0,0,1)` again, so uploaded items are centered
on the camera-facing direction. -/
theorem getFrontAndCenterPos_inverts_display (rotXDeg rotYDeg : ℝ) :
    orbViewWorldRotation rotXDeg rotYDeg
      (staticPos 1 (getFrontAndCenterPos rotXDeg rotYDeg).1
        (getFrontAndCenterPos rotXDeg rotYDeg).2) = ⟨0, 0, 1⟩ :=
  frontAndCenter_radians (degToRad rotXDeg) (degToRad rotYDeg)

end MemoSpace
